import Mathlib

/-!
Verification of the personal-finance-mentor decision core.

Shallow embedding of the deterministic core of the repository:
the purchase risk evaluator (tools/impact_simulator.py), the budget
allocator (tools/budget_calculator.py), the ledger store operations
(memory/storage.py) and the state aggregator (agents/state_agent.py).

Monetary values are modelled as exact rationals.  The Python division
that can raise ZeroDivisionError is modelled by returning an Option:
a result of none marks the input where the source raises.
-/

namespace FinanceMentor

/-! Risk evaluator, from tools/impact_simulator.py -/

/-- Risk classification produced by the evaluator. -/
inductive Status where
  | SAFE
  | CAUTION
  | DANGER
deriving DecidableEq, Repr

/-- Structured risk assessment returned by assess_transaction.
The DANGER branch of the source omits cost_percentage_of_free_cash and
carries impact_on_savings instead; the other branches do the opposite,
so both fields are optional here. -/
structure RiskAssessment where
  status : Status
  reason : String
  remaining_balance : ℚ
  cost_percentage_of_free_cash : Option ℚ
  impact_on_savings : Option String
deriving DecidableEq, Repr

/-- Embedding of ImpactSimulator.assess_transaction.  The source computes
remaining_balance, returns the DANGER record when it is negative, and
otherwise classifies CAUTION or SAFE and divides item_cost by
current_discretionary_balance; that division raises in Python when the
balance is zero, modelled here as none. -/
def assess_transaction (current_discretionary_balance current_savings
    savings_goal item_cost : ℚ) : Option RiskAssessment :=
  let remaining_balance := current_discretionary_balance - item_cost
  if remaining_balance < 0 then
    some { status := Status.DANGER,
           reason := "Insufficient funds. This purchase puts you in debt.",
           remaining_balance := remaining_balance,
           cost_percentage_of_free_cash := none,
           impact_on_savings := some "N/A" }
  else
    let risk_level : Status :=
      if item_cost > current_discretionary_balance * 0.5 then Status.CAUTION
      else Status.SAFE
    let advice : String :=
      if item_cost > current_discretionary_balance * 0.5 then
        "This uses more than 50% of your remaining monthly \x27fun money\x27."
      else "You have enough budget for this."
    if current_discretionary_balance = 0 then
      none
    else
      some { status := risk_level,
             reason := advice,
             remaining_balance := remaining_balance,
             cost_percentage_of_free_cash :=
               some ((item_cost / current_discretionary_balance) * 100),
             impact_on_savings := none }

/-! Budget allocator, from tools/budget_calculator.py -/

/-- Result of calculate_remaining_after_fixed: a deficit record or a
surplus record, mirroring the two dictionaries the source returns. -/
inductive BudgetPlan where
  | deficit (discretionary needs_gap : ℚ)
  | surplus (needs_total discretionary_total recommended_savings
      recommended_wants : ℚ)
deriving DecidableEq, Repr

/-- Embedding of BudgetCalculator.calculate_remaining_after_fixed. -/
def calculate_remaining_after_fixed (income fixed_expenses_total : ℚ) :
    BudgetPlan :=
  let discretionary := income - fixed_expenses_total
  if discretionary < 0 then
    BudgetPlan.deficit 0 |discretionary|
  else
    BudgetPlan.surplus fixed_expenses_total discretionary
      (discretionary * 0.40) (discretionary * 0.60)

/-! Ledger store, from memory/storage.py -/

/-- The user_profile record of the persisted document. -/
structure UserProfile where
  monthly_income : ℚ
  savings_goal : ℚ
  currency : String
deriving DecidableEq, Repr

/-- A fixed_expenses entry of the persisted document. -/
structure FixedExpense where
  name : String
  amount : ℚ
deriving DecidableEq, Repr

/-- A transactions entry of the persisted document; the type field holds
the kind, the string expense or income. -/
structure Transaction where
  date : String
  description : String
  amount : ℚ
  category : String
  type : String
deriving DecidableEq, Repr

/-- The whole persisted document; the budget_plan cache is a key-value
map modelled as an association list. -/
structure StoreData where
  user_profile : UserProfile
  fixed_expenses : List FixedExpense
  transactions : List Transaction
  budget_plan : List (String × ℚ)
deriving DecidableEq, Repr

/-- Embedding of the initial_data document created by
StorageEngine._initialize_db. -/
def initial_data : StoreData :=
  { user_profile := { monthly_income := 0, savings_goal := 0, currency := "₹" },
    fixed_expenses := [],
    transactions := [],
    budget_plan := [] }

/-- Embedding of StorageEngine.update_user_profile: overwrite
monthly_income and savings_goal of the profile. -/
def update_user_profile (data : StoreData) (income savings_goal : ℚ) :
    StoreData :=
  { data with
      user_profile := { data.user_profile with
                          monthly_income := income,
                          savings_goal := savings_goal } }

/-- Embedding of StorageEngine.add_fixed_expense: drop every entry with
the given name, then append the new entry. -/
def add_fixed_expense (data : StoreData) (name : String) (amount : ℚ) :
    StoreData :=
  { data with
      fixed_expenses :=
        (data.fixed_expenses.filter (fun e => e.name ≠ name)) ++
          [{ name := name, amount := amount }] }

/-- Embedding of StorageEngine.log_transaction: append to the log. -/
def log_transaction (data : StoreData) (tx : Transaction) : StoreData :=
  { data with transactions := data.transactions ++ [tx] }

/-! State agent, from agents/state_agent.py -/

/-- Point-in-time snapshot built by get_todays_state. -/
structure FinancialSnapshot where
  income : ℚ
  total_fixed_expenses : ℚ
  variable_expenses : ℚ
  savings_goal : ℚ
  free_cash_flow : ℚ
deriving DecidableEq, Repr

/-- Embedding of FinancialStateAgent.get_total_fixed_expenses. -/
def get_total_fixed_expenses (data : StoreData) : ℚ :=
  (data.fixed_expenses.map (fun e => e.amount)).sum

/-- Embedding of FinancialStateAgent.get_todays_state: variable spend
sums the amounts of transactions whose type is expense, and free cash
flow is income minus fixed total minus variable spend. -/
def get_todays_state (data : StoreData) : FinancialSnapshot :=
  let fixed := get_total_fixed_expenses data
  let variable_spend :=
    ((data.transactions.filter (fun t => t.type = "expense")).map
      (fun t => t.amount)).sum
  { income := data.user_profile.monthly_income,
    total_fixed_expenses := fixed,
    variable_expenses := variable_spend,
    savings_goal := data.user_profile.savings_goal,
    free_cash_flow :=
      data.user_profile.monthly_income - fixed - variable_spend }

namespace FinancialStateAgent

/-- Embedding of FinancialStateAgent.update_profile, which delegates to
the storage engine. -/
def update_profile (data : StoreData) (income savings_goal : ℚ) :
    StoreData :=
  update_user_profile data income savings_goal

/-- Embedding of FinancialStateAgent.add_fixed_expense, which delegates
to the storage engine. -/
def add_fixed_expense (data : StoreData) (name : String) (amount : ℚ) :
    StoreData :=
  FinanceMentor.add_fixed_expense data name amount

/-- Embedding of FinancialStateAgent.log_transaction: builds the
transaction record with the type field fixed to expense and the current
time as date, then appends it.  The wall-clock timestamp is passed in as
the date argument. -/
def log_transaction (data : StoreData) (date item_name : String)
    (amount : ℚ) (category : String) : StoreData :=
  FinanceMentor.log_transaction data
    { date := date,
      description := item_name,
      amount := amount,
      category := category,
      type := "expense" }

end FinancialStateAgent

/-! Helper lemmas shared by the claim theorems below -/

/-- Summing over the expense-kind filter is summing an if-guarded amount
over the whole log. -/
theorem sum_filter_if (l : List Transaction) :
    ((l.filter (fun t => t.type = "expense")).map (fun t => t.amount)).sum =
      (l.map (fun t => if t.type = "expense" then t.amount else 0)).sum := by
  induction l with
  | nil => rfl
  | cons a l ih =>
    by_cases h : a.type = "expense" <;> simp [List.filter_cons, h, ih]

/-! Claim theorems -/

/-- Claim C1: for every discretionary balance and every item cost at
least 0, assess_transaction returns status DANGER exactly when the item
cost exceeds the balance; in that case the returned record carries
remaining_balance equal to balance minus cost, which is negative, and
the cost_percentage_of_free_cash field is absent. -/
theorem assess_danger_iff (current_discretionary_balance current_savings
    savings_goal item_cost : ℚ) (h : 0 ≤ item_cost) :
    ((∃ r, assess_transaction current_discretionary_balance current_savings
          savings_goal item_cost = some r ∧ r.status = Status.DANGER) ↔
        item_cost > current_discretionary_balance) ∧
      (item_cost > current_discretionary_balance →
        assess_transaction current_discretionary_balance current_savings
            savings_goal item_cost =
          some { status := Status.DANGER,
                 reason := "Insufficient funds. This purchase puts you in debt.",
                 remaining_balance :=
                   current_discretionary_balance - item_cost,
                 cost_percentage_of_free_cash := none,
                 impact_on_savings := some "N/A" } ∧
          current_discretionary_balance - item_cost < 0) := by
  have hiff : current_discretionary_balance - item_cost < 0 ↔
      current_discretionary_balance < item_cost := sub_neg
  by_cases hd : current_discretionary_balance - item_cost < 0
  · refine ⟨⟨fun _ => hiff.mp hd, fun _ =>
      ⟨{ status := Status.DANGER,
         reason := "Insufficient funds. This purchase puts you in debt.",
         remaining_balance := current_discretionary_balance - item_cost,
         cost_percentage_of_free_cash := none,
         impact_on_savings := some "N/A" },
       by simp [assess_transaction, hd], rfl⟩⟩,
      fun _ => ⟨by simp [assess_transaction, hd], hd⟩⟩
  · refine ⟨⟨?_, fun hgt => absurd (hiff.mpr hgt) hd⟩,
      fun hgt => absurd (hiff.mpr hgt) hd⟩
    rintro ⟨r, hr, hst⟩
    exfalso
    simp only [assess_transaction, if_neg hd] at hr
    by_cases hz : current_discretionary_balance = 0
    · rw [if_pos hz] at hr
      exact Option.noConfusion hr
    · rw [if_neg hz, Option.some.injEq] at hr
      subst hr
      by_cases hc : item_cost > current_discretionary_balance * 0.5 <;>
        simp [hc] at hst

/-- Claim C1 witness: instantiation at balance 5000 and cost 6000. -/
theorem assess_danger_iff_inst :
    (0:ℚ) ≤ 6000 ∧
      (((∃ r, assess_transaction 5000 0 0 6000 = some r ∧
            r.status = Status.DANGER) ↔ (6000:ℚ) > 5000) ∧
        ((6000:ℚ) > 5000 →
          assess_transaction 5000 0 0 6000 =
            some { status := Status.DANGER,
                   reason := "Insufficient funds. This purchase puts you in debt.",
                   remaining_balance := (5000:ℚ) - 6000,
                   cost_percentage_of_free_cash := none,
                   impact_on_savings := some "N/A" } ∧
            (5000:ℚ) - 6000 < 0)) :=
  ⟨by norm_num, assess_danger_iff 5000 0 0 6000 (by norm_num)⟩

/-- Claim C2: for a positive discretionary balance and an item cost
between 0 and the balance, assess_transaction returns CAUTION when the
cost exceeds half the balance and SAFE otherwise, always with
remaining_balance equal to balance minus cost and percentage equal to
100 times cost over balance; in particular at balance 30000 and cost
20000 it returns CAUTION with remaining 10000 and percentage 200 / 3. -/
theorem assess_caution_or_safe (current_discretionary_balance
    current_savings savings_goal item_cost : ℚ)
    (h0 : 0 < current_discretionary_balance) (h1 : 0 ≤ item_cost)
    (h2 : item_cost ≤ current_discretionary_balance) :
    (item_cost > current_discretionary_balance * 0.5 →
        assess_transaction current_discretionary_balance current_savings
            savings_goal item_cost =
          some { status := Status.CAUTION,
                 reason := "This uses more than 50% of your remaining monthly \x27fun money\x27.",
                 remaining_balance :=
                   current_discretionary_balance - item_cost,
                 cost_percentage_of_free_cash :=
                   some (100 * item_cost / current_discretionary_balance),
                 impact_on_savings := none }) ∧
      (¬ item_cost > current_discretionary_balance * 0.5 →
        assess_transaction current_discretionary_balance current_savings
            savings_goal item_cost =
          some { status := Status.SAFE,
                 reason := "You have enough budget for this.",
                 remaining_balance :=
                   current_discretionary_balance - item_cost,
                 cost_percentage_of_free_cash :=
                   some (100 * item_cost / current_discretionary_balance),
                 impact_on_savings := none }) ∧
      assess_transaction 30000 0 0 20000 =
        some { status := Status.CAUTION,
               reason := "This uses more than 50% of your remaining monthly \x27fun money\x27.",
               remaining_balance := 10000,
               cost_percentage_of_free_cash := some (200 / 3),
               impact_on_savings := none } := by
  have hnd : ¬ (current_discretionary_balance - item_cost < 0) :=
    not_lt.mpr (sub_nonneg.mpr h2)
  have hz : current_discretionary_balance ≠ 0 := ne_of_gt h0
  refine ⟨fun hc => ?_, fun hc => ?_, ?_⟩
  · simp [assess_transaction, hnd, hz, hc]
    ring
  · simp [assess_transaction, hnd, hz, hc]
    ring
  · norm_num [assess_transaction]

/-- Claim C2 witness: instantiation at balance 30000 and cost 20000. -/
theorem assess_caution_or_safe_inst :
    (0:ℚ) < 30000 ∧ (0:ℚ) ≤ 20000 ∧ (20000:ℚ) ≤ 30000 ∧
      (((20000:ℚ) > 30000 * 0.5 →
          assess_transaction 30000 0 0 20000 =
            some { status := Status.CAUTION,
                   reason := "This uses more than 50% of your remaining monthly \x27fun money\x27.",
                   remaining_balance := (30000:ℚ) - 20000,
                   cost_percentage_of_free_cash :=
                     some (100 * 20000 / 30000),
                   impact_on_savings := none }) ∧
        (¬ (20000:ℚ) > 30000 * 0.5 →
          assess_transaction 30000 0 0 20000 =
            some { status := Status.SAFE,
                   reason := "You have enough budget for this.",
                   remaining_balance := (30000:ℚ) - 20000,
                   cost_percentage_of_free_cash :=
                     some (100 * 20000 / 30000),
                   impact_on_savings := none }) ∧
        assess_transaction 30000 0 0 20000 =
          some { status := Status.CAUTION,
                 reason := "This uses more than 50% of your remaining monthly \x27fun money\x27.",
                 remaining_balance := 10000,
                 cost_percentage_of_free_cash := some (200 / 3),
                 impact_on_savings := none }) :=
  ⟨by norm_num, by norm_num, by norm_num,
    assess_caution_or_safe 30000 0 0 20000 (by norm_num) (by norm_num)
      (by norm_num)⟩

/-- Claim C3: at discretionary balance 0 and item cost 0 the DANGER
guard fails and control reaches the unguarded division by the balance:
assess_transaction hits the division-by-zero branch, modelled as none. -/
theorem assess_division_by_zero_reachable (current_savings
    savings_goal : ℚ) :
    assess_transaction 0 current_savings savings_goal 0 = none := by
  norm_num [assess_transaction]

/-- Claim C4: when 0 ≤ fixedTotal ≤ income, the allocator returns a
surplus record whose needs_total is the fixed total, whose discretionary
total is income minus fixed total, whose recommended savings and wants
are 40 and 60 percent of that amount, and those two recommendations sum
exactly to the discretionary total. -/
theorem allocate_surplus_split (income fixed_expenses_total : ℚ)
    (h0 : 0 ≤ income) (h1 : 0 ≤ fixed_expenses_total)
    (h2 : fixed_expenses_total ≤ income) :
    calculate_remaining_after_fixed income fixed_expenses_total =
        BudgetPlan.surplus fixed_expenses_total
          (income - fixed_expenses_total)
          ((income - fixed_expenses_total) * 0.40)
          ((income - fixed_expenses_total) * 0.60) ∧
      (income - fixed_expenses_total) * 0.40 +
          (income - fixed_expenses_total) * 0.60 =
        income - fixed_expenses_total := by
  have hnd : ¬ (income - fixed_expenses_total < 0) :=
    not_lt.mpr (sub_nonneg.mpr h2)
  exact ⟨by simp [calculate_remaining_after_fixed, hnd], by ring⟩

/-- Claim C4 witness: instantiation at income 50000 and fixed 20000. -/
theorem allocate_surplus_split_inst :
    (0:ℚ) ≤ 50000 ∧ (0:ℚ) ≤ 20000 ∧ (20000:ℚ) ≤ 50000 ∧
      (calculate_remaining_after_fixed 50000 20000 =
          BudgetPlan.surplus 20000 ((50000:ℚ) - 20000)
            (((50000:ℚ) - 20000) * 0.40) (((50000:ℚ) - 20000) * 0.60) ∧
        ((50000:ℚ) - 20000) * 0.40 + ((50000:ℚ) - 20000) * 0.60 =
          (50000:ℚ) - 20000) :=
  ⟨by norm_num, by norm_num, by norm_num,
    allocate_surplus_split 50000 20000 (by norm_num) (by norm_num)
      (by norm_num)⟩

/-- Claim C5: when the fixed total exceeds income, the allocator
returns a deficit record with discretionary clamped to 0 and needs_gap
equal to fixed total minus income; in particular at income 30000 and
fixed 40000 the gap is 10000. -/
theorem allocate_deficit_gap (income fixed_expenses_total : ℚ)
    (h : income < fixed_expenses_total) :
    calculate_remaining_after_fixed income fixed_expenses_total =
        BudgetPlan.deficit 0 (fixed_expenses_total - income) ∧
      calculate_remaining_after_fixed 30000 40000 =
        BudgetPlan.deficit 0 10000 := by
  have hd : income - fixed_expenses_total < 0 := sub_neg.mpr h
  exact ⟨by simp [calculate_remaining_after_fixed, hd, abs_of_neg hd,
      neg_sub],
    by norm_num [calculate_remaining_after_fixed]⟩

/-- Claim C5 witness: instantiation at income 30000 and fixed 40000. -/
theorem allocate_deficit_gap_inst :
    (30000:ℚ) < 40000 ∧
      (calculate_remaining_after_fixed 30000 40000 =
          BudgetPlan.deficit 0 ((40000:ℚ) - 30000) ∧
        calculate_remaining_after_fixed 30000 40000 =
          BudgetPlan.deficit 0 10000) :=
  ⟨by norm_num, allocate_deficit_gap 30000 40000 (by norm_num)⟩

/-- Claim C6: the snapshot of any store sums exactly the expense-kind
transactions into variable_expenses, income-kind transactions
contribute nothing, total_fixed_expenses sums all fixed expenses, and
free_cash_flow is income minus fixed total minus variable expenses. -/
theorem snapshot_variable_and_free_cash (data : StoreData)
    (tx : Transaction) (hinc : tx.type = "income") :
    (get_todays_state data).variable_expenses =
        (data.transactions.map
          (fun t => if t.type = "expense" then t.amount else 0)).sum ∧
      (get_todays_state data).total_fixed_expenses =
        (data.fixed_expenses.map (fun e => e.amount)).sum ∧
      (get_todays_state data).free_cash_flow =
        (get_todays_state data).income -
          (get_todays_state data).total_fixed_expenses -
          (get_todays_state data).variable_expenses ∧
      (get_todays_state (log_transaction data tx)).variable_expenses =
        (get_todays_state data).variable_expenses := by
  refine ⟨sum_filter_if data.transactions, rfl, rfl, ?_⟩
  simp [get_todays_state, log_transaction, List.filter_append, hinc]

/-- Claim C6 witness: instantiation at the initial store and a concrete
income-kind transaction. -/
theorem snapshot_variable_and_free_cash_inst :
    (Transaction.mk "2026-01-01T00:00:00" "salary" 1000 "Needs"
        "income").type = "income" ∧
      ((get_todays_state initial_data).variable_expenses =
          (initial_data.transactions.map
            (fun t => if t.type = "expense" then t.amount else 0)).sum ∧
        (get_todays_state initial_data).total_fixed_expenses =
          (initial_data.fixed_expenses.map (fun e => e.amount)).sum ∧
        (get_todays_state initial_data).free_cash_flow =
          (get_todays_state initial_data).income -
            (get_todays_state initial_data).total_fixed_expenses -
            (get_todays_state initial_data).variable_expenses ∧
        (get_todays_state (log_transaction initial_data
            (Transaction.mk "2026-01-01T00:00:00" "salary" 1000 "Needs"
              "income"))).variable_expenses =
          (get_todays_state initial_data).variable_expenses) :=
  ⟨rfl, snapshot_variable_and_free_cash initial_data
    (Transaction.mk "2026-01-01T00:00:00" "salary" 1000 "Needs" "income")
    rfl⟩

/-- Claim C7: starting from a store with unique fixed-expense names,
add_fixed_expense keeps the names unique and leaves exactly one entry
with the given name, carrying the given amount; in particular adding
Rent 500 then Rent 600 to the initial store leaves the single entry
Rent 600. -/
theorem add_fixed_expense_upsert (data : StoreData) (name : String)
    (amount : ℚ)
    (h : (data.fixed_expenses.map (fun e => e.name)).Nodup) :
    ((add_fixed_expense data name amount).fixed_expenses.map
        (fun e => e.name)).Nodup ∧
      ((add_fixed_expense data name amount).fixed_expenses.filter
          (fun e => e.name = name)) =
        [{ name := name, amount := amount }] ∧
      (add_fixed_expense (add_fixed_expense initial_data "Rent" 500)
          "Rent" 600).fixed_expenses =
        [{ name := "Rent", amount := 600 }] := by
  refine ⟨?_, ?_, by simp [add_fixed_expense, initial_data]⟩
  · simp only [add_fixed_expense, List.map_append]
    rw [List.nodup_append]
    refine ⟨h.sublist ((List.filter_sublist _).map _), by simp, ?_⟩
    intro a ha hb
    simp only [List.mem_map, List.mem_filter] at ha
    obtain ⟨e, ⟨_, hne⟩, rfl⟩ := ha
    simp at hb hne
    exact hne hb
  · simp only [add_fixed_expense, List.filter_append, List.filter_filter]
    have hnil : (data.fixed_expenses.filter
        (fun e => decide (e.name = name) && decide (e.name ≠ name))) = [] := by
      apply List.filter_eq_nil_iff.mpr
      intro e _
      simp
    simp [hnil]

/-- Claim C7 witness: instantiation at the initial store with Rent 500. -/
theorem add_fixed_expense_upsert_inst :
    ((initial_data.fixed_expenses.map (fun e => e.name)).Nodup) ∧
      (((add_fixed_expense initial_data "Rent" 500).fixed_expenses.map
          (fun e => e.name)).Nodup ∧
        ((add_fixed_expense initial_data "Rent" 500).fixed_expenses.filter
            (fun e => e.name = "Rent")) =
          [{ name := "Rent", amount := 500 }] ∧
        (add_fixed_expense (add_fixed_expense initial_data "Rent" 500)
            "Rent" 600).fixed_expenses =
          [{ name := "Rent", amount := 600 }]) :=
  ⟨by simp [initial_data],
    add_fixed_expense_upsert initial_data "Rent" 500
      (by simp [initial_data])⟩

/-- Claim C8: assess_transaction never reads current_savings or
savings_goal: two calls agreeing on balance and cost and differing
arbitrarily in those two parameters return the same assessment. -/
theorem assess_ignores_savings_params (current_discretionary_balance
    item_cost current_savings savings_goal other_savings other_goal : ℚ) :
    assess_transaction current_discretionary_balance current_savings
        savings_goal item_cost =
      assess_transaction current_discretionary_balance other_savings
        other_goal item_cost := rfl

/-- Claim C9: update_user_profile touches only monthly_income and
savings_goal: the currency field and the fixed_expenses, transactions
and budget_plan collections are unchanged. -/
theorem update_profile_frame_effect (data : StoreData)
    (income savings_goal : ℚ) :
    (update_user_profile data income savings_goal).user_profile.currency =
        data.user_profile.currency ∧
      (update_user_profile data income savings_goal).fixed_expenses =
        data.fixed_expenses ∧
      (update_user_profile data income savings_goal).transactions =
        data.transactions ∧
      (update_user_profile data income savings_goal).budget_plan =
        data.budget_plan :=
  ⟨rfl, rfl, rfl, rfl⟩

/-- Claim C10: the state agent logs every transaction with the type
field fixed to expense, so a store whose transactions are all
expense-kind keeps that property under each mutating agent operation. -/
theorem agent_log_transaction_expense_only (data : StoreData)
    (date item_name : String) (amount : ℚ) (category : String)
    (income savings_goal fe_amount : ℚ) (fe_name : String)
    (h : ∀ t ∈ data.transactions, t.type = "expense") :
    (∀ t ∈ (FinancialStateAgent.log_transaction data date item_name
        amount category).transactions, t.type = "expense") ∧
      (∀ t ∈ (FinancialStateAgent.update_profile data income
          savings_goal).transactions, t.type = "expense") ∧
      (∀ t ∈ (FinancialStateAgent.add_fixed_expense data fe_name
          fe_amount).transactions, t.type = "expense") := by
  refine ⟨?_, h, h⟩
  intro t ht
  simp only [FinancialStateAgent.log_transaction, log_transaction,
    List.mem_append, List.mem_singleton] at ht
  rcases ht with ht | rfl
  · exact h t ht
  · rfl

/-- Claim C10 witness: instantiation at the initial store. -/
theorem agent_log_transaction_expense_only_inst :
    (∀ t ∈ initial_data.transactions, t.type = "expense") ∧
      ((∀ t ∈ (FinancialStateAgent.log_transaction initial_data
          "2026-01-01T00:00:00" "Coffee" 100 "Wants").transactions,
          t.type = "expense") ∧
        (∀ t ∈ (FinancialStateAgent.update_profile initial_data
            50000 10000).transactions, t.type = "expense") ∧
        (∀ t ∈ (FinancialStateAgent.add_fixed_expense initial_data
            "Rent" 500).transactions, t.type = "expense")) :=
  ⟨by simp [initial_data],
    agent_log_transaction_expense_only initial_data "2026-01-01T00:00:00"
      "Coffee" 100 "Wants" 50000 10000 500 "Rent"
      (by simp [initial_data])⟩

end FinanceMentor
